import Mathlib

/-!
Verification of the Dockerfile/compose matrix generator `buildall.py`.

The script holds a static catalog of Ubuntu versions with lists of clang,
gcc, CUDA (nvcc) and NVHPC versions, renders one Dockerfile per enumerated
target plus a `docker-compose.yml` manifest, and then drives batched
`docker-compose build` invocations.

The embedding below mirrors the source function by function:
* `gen_alternatives` embeds `_gen_alternatives`,
* `get_compiler_text` embeds `_get_compiler_text` (the `assert` becomes
  an `Option` failure),
* `dockerfileText` embeds the content written by `generate_docker`,
* `osTargets` / `composeText` / `osWrites` / `generatedWrites` embed the
  enumeration, compose-manifest and file writes performed by `main`,
* `buildCommands` embeds the build-driver command list of `main`.

File writes are modelled by an association list from file names to
contents, written in program order with overwrite semantics.
-/

namespace Buildall

/-! ### String occurrence helpers (specification-side measuring devices) -/

/-- `strOccurs hay pat` means `pat` occurs as a contiguous substring of `hay`. -/
def strOccurs (hay pat : String) : Prop :=
  pat.data <:+: hay.data

instance (hay pat : String) : Decidable (strOccurs hay pat) := by
  unfold strOccurs
  infer_instance

/-- `strOccursBefore hay u v` means there is an occurrence of `u` in `hay`
that ends before (at a smaller byte offset than) an occurrence of `v`. -/
def strOccursBefore (hay u v : String) : Prop :=
  ∃ a b c : List Char, hay.data = a ++ u.data ++ (b ++ (v.data ++ c))

/-- Number of occurrences of a pattern in a string, counted at every start
position. -/
def countSubstr (hay pat : String) : Nat :=
  (hay.data.tails.filter (fun t => pat.data.isPrefixOf t)).length

theorem string_eq_of_data (a b : String) (h : a.data = b.data) : a = b := by
  cases a
  cases b
  exact congrArg String.mk h

theorem strOccurs_appendL (s t pat : String) (h : strOccurs s pat) :
    strOccurs (s ++ t) pat := by
  rcases h with ⟨a, c, hac⟩
  exact ⟨a, c ++ t.data, by rw [String.data_append, ← hac]; simp⟩

theorem strOccurs_appendR (s t pat : String) (h : strOccurs t pat) :
    strOccurs (s ++ t) pat := by
  rcases h with ⟨a, c, hac⟩
  exact ⟨s.data ++ a, c, by rw [String.data_append, ← hac]; simp⟩

theorem strOccurs_self_append (pat t : String) : strOccurs (pat ++ t) pat :=
  strOccurs_appendL pat t pat ⟨[], [], by simp⟩

theorem strOccurs_refl (pat : String) : strOccurs pat pat :=
  ⟨[], [], by simp⟩

theorem strOccursBefore_appendL (s t u v : String)
    (h : strOccursBefore s u v) : strOccursBefore (s ++ t) u v := by
  rcases h with ⟨a, b, c, habc⟩
  exact ⟨a, b, c ++ t.data, by rw [String.data_append, habc]; simp⟩

theorem strOccursBefore_appendR (s t u v : String)
    (h : strOccursBefore t u v) : strOccursBefore (s ++ t) u v := by
  rcases h with ⟨a, b, c, habc⟩
  exact ⟨s.data ++ a, b, c, by rw [String.data_append, habc]; simp⟩

/-- Assemble an ordering witness from an occurrence of `u` in `s` and an
occurrence of `v` in `t`: in `s ++ t` the former precedes the latter. -/
theorem strOccursBefore_of_append (s t u v : String)
    (hu : strOccurs s u) (hv : strOccurs t v) :
    strOccursBefore (s ++ t) u v := by
  rcases hu with ⟨a, b, hab⟩
  rcases hv with ⟨c, d, hcd⟩
  refine ⟨a, b ++ c, d, ?_⟩
  rw [String.data_append, ← hab, ← hcd]
  simp

/-! ### Versions, compiler requests, and `_gen_alternatives` -/

/-- A clang version entry of the catalog: either a concrete number or the
string sentinel `"dev"`. -/
inductive ClangVer where
  | dev : ClangVer
  | num : Nat → ClangVer
deriving DecidableEq, Repr

/-- Rendering of a clang version the way Python string interpolation does. -/
def ClangVer.str : ClangVer → String
  | .dev => "dev"
  | .num n => toString n

/-- The `compilers` dictionary passed to `_get_compiler_text`: the script
only ever populates the keys `"clang"` and `"gcc"`. -/
structure Compilers where
  clang : Option ClangVer
  gcc : Option Nat
deriving DecidableEq, Repr

/-- `rule = f"/usr/bin/{alias} {alias} {actual}"` in `_gen_alternatives`. -/
def altRule (p : String × String) : String :=
  "/usr/bin/" ++ p.1 ++ " " ++ p.1 ++ " " ++ p.2

/-- One iteration of the loop body of `_gen_alternatives`. -/
def genAltStep (res : String) (p : String × String) : String :=
  if res = "" then "update-alternatives --install " ++ altRule p ++ " 100 "
  else res ++ " \\\n        --slave " ++ altRule p

/-- Embedding of `_gen_alternatives`: fold of the loop body over the list
of (alias, actual) pairs, starting from the empty accumulator. -/
def gen_alternatives (alts : List (String × String)) : String :=
  alts.foldl genAltStep ""

/-! ### `_get_compiler_text` -/

/-- `v == "dev" or v >= 13`: the condition for the deferred-version branch. -/
def clangDeferred : ClangVer → Bool
  | .dev => true
  | .num n => 13 ≤ n

/-- The shell-evaluated version lookup expression assigned to
`llvm_apt_ver` in the deferred branch (evaluated at container-build time). -/
def llvmLookupExpr : String :=
  "$(apt policy llvm 2>/dev/null | grep -E \x27Candidate: 1:(.*).*$\x27 - | cut -d\x27:\x27 -f3 | cut -d\x27.\x27 -f1)"

/-- `llvm_dev_ver = "" if v == "dev" else f"-{v}"`. -/
def llvm_dev_ver : ClangVer → String
  | .dev => ""
  | .num n => "-" ++ toString n

/-- Final value of the `llvm_apt_ver` variable: initialized to `f"{v}"` and
overwritten with the lookup expression in the deferred branch. -/
def llvm_apt_ver (v : ClangVer) : String :=
  if clangDeferred v then llvmLookupExpr else ClangVer.str v

/-- Final value of `llvm_apt_repos`: the two repository-add commands in the
deferred branch, empty otherwise. -/
def llvm_apt_repos (v : ClangVer) : List String :=
  if clangDeferred v then
    ["wget -qO - https://apt.llvm.org/llvm-snapshot.gpg.key | apt-key add -",
     "apt-add-repository -y -n \"deb http://apt.llvm.org/$(lsb_release -cs)/ llvm-toolchain-$(lsb_release -cs)"
       ++ llvm_dev_ver v ++ " main\""]
  else []

/-- The `v="{llvm_apt_ver}"` binding of the shell variable `v` inside the
generated pre-install block. -/
def vBindingChunk (v : ClangVer) : String :=
  "v=\"" ++ llvm_apt_ver v ++ "\""

/-- The `pre_install` string built in the clang branch of
`_get_compiler_text`: joined repository commands followed by the
`apt update` / `v="{llvm_apt_ver}"` / `apt policy` block. -/
def clangPreInstall (v : ClangVer) : String :=
  (if (llvm_apt_repos v).length > 0 then
      String.intercalate "; \\\n    " (llvm_apt_repos v) ++ "; \\\n    "
    else "")
  ++ ("apt update; \\\n    "
      ++ (vBindingChunk v
          ++ "; \\\n    apt policy llvm-$v; \\\n    apt policy clang-$v; \\\n    apt policy clang-tidy-$v; \\\n    apt policy clang-format-$v; \\\n    apt policy libc++-$v-dev; \\\n    apt policy libc++abi-$v-dev; \\\n"))

/-- The `packages` string set in the clang branch; the version token is the
shell variable `$v` in every package name. -/
def clangPackages : String :=
  "\\\n        llvm-$v \\\n        clang-$v \\\n        clang-tidy-$v \\\n        clang-format-$v \\\n        libc++-$v-dev \\\n        libc++abi-$v-dev"

/-- The six clang alias pairs appended to `alts` in the clang branch. -/
def clangAltPairs : List (String × String) :=
  [("clang", "/usr/bin/clang-$v"),
   ("clang++", "/usr/bin/clang++-$v"),
   ("clang-tidy", "/usr/bin/clang-tidy-$v"),
   ("clang-format", "/usr/bin/clang-format-$v"),
   ("llvm-cov", "/usr/lib/llvm-$v/bin/llvm-cov"),
   ("run-clang-tidy", "/usr/lib/llvm-$v/bin/run-clang-tidy")]

/-- The gcc-to-clang alias pairs added when no gcc request is present. -/
def gccFromClangAltPairs : List (String × String) :=
  [("gcc", "/usr/bin/clang-$v"),
   ("g++", "/usr/bin/clang++-$v"),
   ("gcov", "/usr/lib/llvm-$v/bin/llvm-cov")]

/-- The gcc alias pairs appended in the gcc branch. -/
def gccAltPairs (v : Nat) : List (String × String) :=
  [("gcc", "/usr/bin/gcc-" ++ toString v),
   ("g++", "/usr/bin/g++-" ++ toString v),
   ("gcov", "/usr/bin/gcov-" ++ toString v)]

/-- Final value of the `alts` list of `_get_compiler_text`: clang aliases
first (plus gcc-to-clang aliases when gcc is absent), gcc aliases second. -/
def compilerAlts (c : Option ClangVer) (g : Option Nat) : List (String × String) :=
  (match c with
   | none => []
   | some _ => clangAltPairs ++ (if g.isNone then gccFromClangAltPairs else []))
  ++ (match g with
      | none => []
      | some w => gccAltPairs w)

/-- Final value of `pre_install`: `"apt -y update;"` unless a clang request
replaces it with the clang pre-install block. -/
def compilerPreInstall (c : Option ClangVer) : String :=
  match c with
  | none => "apt -y update;"
  | some v => clangPreInstall v

/-- Final value of `packages`: clang package block, then ` g++-{v}`, then
the extra packages, each conditionally appended. -/
def compilerPackages (c : Option ClangVer) (g : Option Nat) (extra : String) : String :=
  let p1 := match c with
    | none => ""
    | some _ => clangPackages
  let p2 := match g with
    | none => p1
    | some w => p1 ++ " g++-" ++ toString w
  if extra = "" then p2 else p2 ++ " " ++ extra

/-- The full `RUN` block returned by `_get_compiler_text` (after the
`assert` succeeded). -/
def compilerBody (c : Option ClangVer) (g : Option Nat) (extra : String) : String :=
  "\n# Clang and tools\nRUN set -xe; \\\n    "
  ++ compilerPreInstall c
  ++ " \\\n    apt install -y --no-install-recommends \\\n        "
  ++ compilerPackages c g extra
  ++ " \\\n    ; \\\n    rm -rf /var/lib/apt/lists/*; \\\n    "
  ++ gen_alternatives (compilerAlts c g)
  ++ "\n"

/-- Embedding of `_get_compiler_text`; the Python `assert "clang" in
compilers or "gcc" in compilers` becomes the `none` case. -/
def get_compiler_text (compilers : Compilers) (extra : String) : Option String :=
  match compilers.clang, compilers.gcc with
  | none, none => none
  | c, g => some (compilerBody c g extra)

/-! ### `generate_docker`: the full Dockerfile text -/

/-- The module-level `prologue` string. -/
def prologue : String :=
  "\n\nARG DEBIAN_FRONTEND=noninteractive\nARG CMAKE_VERSION=3.24.2\n\nSHELL [\"/bin/bash\", \"-Eeox\", \"pipefail\", \"-c\"]\n"

/-- The module-level `install_base` string. -/
def install_base : String :=
  "\n# Common package setup\nRUN set -xe; \\\n    # Install pacakges to allow us to install other packages\n    apt update; \\\n    apt install -y --no-install-recommends \\\n        apt-transport-https ca-certificates gnupg software-properties-common wget; \\\n    apt-add-repository -y -n \x27ppa:ubuntu-toolchain-r/test\x27; \\\n    apt update; \\\n    # Install generic build tools & python\n    apt install -y --no-install-recommends \\\n        pkg-config make \\\n        python3 python3-pip python3-setuptools \\\n        ; \\\n    # Install CMake\n    wget -O /tmp/cmake.sh \\\n        https://github.com/Kitware/CMake/releases/download/v$\x7bCMAKE_VERSION\x7d/cmake-$\x7bCMAKE_VERSION\x7d-linux-$(uname -m).sh; \\\n    sh /tmp/cmake.sh --skip-license --exclude-subdir --prefix=/usr/local; \\\n    # Cleanup apt packages\n    rm -rf /tmp/* /var/tmp/* /var/cache/apt/* /var/lib/apt/lists/*; \\\n    # Install conan\n    python3 -m pip install conan\n"

/-- The module-level `epilogue` string. -/
def epilogue : String :=
  "\n# The entry point\nCOPY entrypoint.py /usr/local/bin/entrypoint.py\nENTRYPOINT [\"/usr/local/bin/entrypoint.py\"]\nSHELL [\"/bin/bash\", \"-c\"]\n"

/-- Content written by `generate_docker` to one Dockerfile: the five write
calls concatenated; `none` when `_get_compiler_text` rejects the request. -/
def dockerfileText (base_image : String) (compilers : Compilers) (extra : String) :
    Option String :=
  (get_compiler_text compilers extra).map
    (fun t => "FROM " ++ base_image ++ prologue ++ install_base ++ t ++ epilogue)

/-! ### The catalog and the enumerated build targets -/

/-- One element of an `nvhpc_versions` list. -/
structure NvhpcVer where
  hpc_ver : String
  cuda_ver : String
deriving DecidableEq, Repr

/-- One value of the `ubuntu_versions` catalog dictionary. -/
structure OsEntry where
  clang_versions : List ClangVer
  gcc_versions : List Nat
  nvcc_versions : List String
  nvhpc_versions : List NvhpcVer
deriving DecidableEq, Repr

/-- A catalog: the `ubuntu_versions` dictionary as an ordered list of
(OS version, entry) pairs. -/
abbrev Catalog := List (String × OsEntry)

/-- The catalog value for Ubuntu 20.04: clang 7..15 plus `"dev"`, gcc
7..11, two CUDA versions, six NVHPC pairs. -/
def os2004 : OsEntry :=
  { clang_versions := [.num 7, .num 8, .num 9, .num 10, .num 11, .num 12,
                       .num 13, .num 14, .num 15, .dev],
    gcc_versions := [7, 8, 9, 10, 11],
    nvcc_versions := ["11.7.1", "11.8.0"],
    nvhpc_versions := [⟨"22.7", "11.7"⟩, ⟨"22.7", "_multi"⟩,
                       ⟨"22.9", "11.7"⟩, ⟨"22.9", "_multi"⟩,
                       ⟨"22.11", "11.8"⟩, ⟨"22.11", "_multi"⟩] }

/-- The catalog value for Ubuntu 22.04: clang 14, 15 plus `"dev"`, gcc
9..12, two CUDA versions, six NVHPC pairs. -/
def os2204 : OsEntry :=
  { clang_versions := [.num 14, .num 15, .dev],
    gcc_versions := [9, 10, 11, 12],
    nvcc_versions := ["11.7.1", "11.8.0"],
    nvhpc_versions := [⟨"22.7", "11.7"⟩, ⟨"22.7", "_multi"⟩,
                       ⟨"22.9", "11.7"⟩, ⟨"22.9", "_multi"⟩,
                       ⟨"22.11", "11.8"⟩, ⟨"22.11", "_multi"⟩] }

/-- The hardcoded `ubuntu_versions` catalog of the script. -/
def ubuntu_versions : Catalog :=
  [("20.04", os2004), ("22.04", os2204)]

/-- One enumerated build target; each constructor records the tuple the
derived names are built from. -/
inductive Target where
  | primary (osv : String)
  | clangOnly (v : ClangVer) (osv : String)
  | gccOnly (v : Nat) (osv : String)
  | gccCuda (v : Nat) (cuda : String) (osv : String)
  | gccNvhpc (v : Nat) (cuda : String) (hpc : String) (osv : String)
deriving DecidableEq, Repr

/-- The compose service name of a target, as interpolated by `main`. -/
def serviceName : Target → String
  | .primary osv => "main-ubuntu" ++ osv
  | .clangOnly v osv => "clang" ++ v.str ++ "-ubuntu" ++ osv
  | .gccOnly v osv => "gcc" ++ toString v ++ "-ubuntu" ++ osv
  | .gccCuda v cuda osv => "gcc" ++ toString v ++ "-cuda" ++ cuda ++ "-ubuntu" ++ osv
  | .gccNvhpc v cuda hpc osv =>
      "gcc" ++ toString v ++ "-cuda" ++ cuda ++ "-nvhpc" ++ hpc ++ "-ubuntu" ++ osv

/-- The Dockerfile name of a target, as interpolated in the
`generate_docker` calls of `main`. -/
def dockerfileName : Target → String
  | .primary osv => "Dockerfile.main-ubuntu" ++ osv
  | .clangOnly v osv => "Dockerfile.clang" ++ v.str ++ "-ubuntu" ++ osv
  | .gccOnly v osv => "Dockerfile.gcc" ++ toString v ++ "-ubuntu" ++ osv
  | .gccCuda v cuda osv =>
      "Dockerfile.gcc" ++ toString v ++ "-cuda" ++ cuda ++ "-ubuntu" ++ osv
  | .gccNvhpc v cuda hpc osv =>
      "Dockerfile.gcc" ++ toString v ++ "-cuda" ++ cuda ++ "-nvhpc" ++ hpc ++ "-ubuntu" ++ osv

/-- The base image passed to `generate_docker` for a target. -/
def targetBaseImage : Target → String
  | .primary osv => "ubuntu:" ++ osv
  | .clangOnly _ osv => "ubuntu:" ++ osv
  | .gccOnly _ osv => "ubuntu:" ++ osv
  | .gccCuda _ cuda osv => "nvidia/cuda:" ++ cuda ++ "-devel-ubuntu" ++ osv
  | .gccNvhpc _ cuda hpc osv =>
      "nvcr.io/nvidia/nvhpc:" ++ hpc ++ "-devel-cuda" ++ cuda ++ "-ubuntu" ++ osv

/-- The compilers dictionary passed to `generate_docker` for a target;
`cl`/`gl` are the last clang and gcc versions of the OS entry, used by the
primary target. -/
def targetCompilers (cl : ClangVer) (gl : Nat) : Target → Compilers
  | .primary _ => ⟨some cl, some gl⟩
  | .clangOnly v _ => ⟨some v, none⟩
  | .gccOnly v _ => ⟨none, some v⟩
  | .gccCuda v _ _ => ⟨none, some v⟩
  | .gccNvhpc v _ _ _ => ⟨none, some v⟩

/-- The extra-packages argument for a target: nonempty only for primary. -/
def targetExtra : Target → String
  | .primary _ => "curl git cppcheck iwyu lcov"
  | _ => ""

/-- Targets enumerated for one OS version, in the order `main` generates
their Dockerfiles (and, identically, writes their compose stanzas):
primary; each clang version; for each gcc version: the gcc target, its
CUDA targets, its NVHPC targets. -/
def osTargets (osv : String) (e : OsEntry) : List Target :=
  [Target.primary osv]
  ++ e.clang_versions.map (fun v => Target.clangOnly v osv)
  ++ (e.gcc_versions.map (fun v =>
        [Target.gccOnly v osv]
        ++ e.nvcc_versions.map (fun cuda => Target.gccCuda v cuda osv)
        ++ e.nvhpc_versions.map
            (fun p => Target.gccNvhpc v p.cuda_ver p.hpc_ver osv))).flatten

/-- All targets of a catalog, in generation order. -/
def allTargets (cat : Catalog) : List Target :=
  cat.flatMap (fun p => osTargets p.1 p.2)

/-! ### The compose manifest -/

/-- The compose stanza written for one target: transcription of the five
f-strings of `main`, one per target shape. -/
def composeStanza (repo : String) : Target → String
  | .primary osv =>
      "\n  main-ubuntu" ++ osv ++ ":\n    image: " ++ repo ++ ":main-ubuntu" ++ osv
      ++ "\n    build:\n      context: .\n      dockerfile: Dockerfile.main-ubuntu"
      ++ osv ++ "\n    "
  | .clangOnly v osv =>
      "\n  clang" ++ v.str ++ "-ubuntu" ++ osv ++ ":\n    image: " ++ repo
      ++ ":clang" ++ v.str ++ "-ubuntu" ++ osv
      ++ "\n    build:\n      context: .\n      dockerfile: Dockerfile.clang"
      ++ v.str ++ "-ubuntu" ++ osv ++ "\n    "
  | .gccOnly v osv =>
      "\n  gcc" ++ toString v ++ "-ubuntu" ++ osv ++ ":\n    image: " ++ repo
      ++ ":gcc" ++ toString v ++ "-ubuntu" ++ osv
      ++ "\n    build:\n      context: .\n      dockerfile: Dockerfile.gcc"
      ++ toString v ++ "-ubuntu" ++ osv ++ "\n    "
  | .gccCuda v cuda osv =>
      "\n  gcc" ++ toString v ++ "-cuda" ++ cuda ++ "-ubuntu" ++ osv
      ++ ":\n    image: " ++ repo ++ ":gcc" ++ toString v ++ "-cuda" ++ cuda
      ++ "-ubuntu" ++ osv
      ++ "\n    build:\n      context: .\n      dockerfile: Dockerfile.gcc"
      ++ toString v ++ "-cuda" ++ cuda ++ "-ubuntu" ++ osv ++ "\n    "
  | .gccNvhpc v cuda hpc osv =>
      "\n  gcc" ++ toString v ++ "-cuda" ++ cuda ++ "-nvhpc" ++ hpc ++ "-ubuntu" ++ osv
      ++ ":\n    image: " ++ repo ++ ":gcc" ++ toString v ++ "-cuda" ++ cuda
      ++ "-nvhpc" ++ hpc ++ "-ubuntu" ++ osv
      ++ "\n    build:\n      context: .\n      dockerfile: Dockerfile.gcc"
      ++ toString v ++ "-cuda" ++ cuda ++ "-nvhpc" ++ hpc ++ "-ubuntu" ++ osv ++ "\n    "

/-- Full content of `docker-compose.yml` at the end of `main`: the
`services:` header followed by one stanza per target, in enumeration
order. -/
def composeText (repo : String) (cat : Catalog) : String :=
  "services:\n" ++ String.join ((allTargets cat).map (composeStanza repo))

/-! ### The file-system model and the generation run -/

/-- A file system: an association list from file names to contents. -/
abbrev FS := List (String × String)

/-- Overwrite-or-append write of one file. -/
def fsWrite : FS → String → String → FS
  | [], name, content => [(name, content)]
  | (n, c) :: rest, name, content =>
      if n = name then (n, content) :: rest
      else (n, c) :: fsWrite rest name content

/-- Read one file. -/
def fsRead : FS → String → Option String
  | [], _ => none
  | (n, c) :: rest, name => if n = name then some c else fsRead rest name

/-- Apply a list of writes in order. -/
def applyWrites (fs : FS) (w : List (String × String)) : FS :=
  w.foldl (fun acc p => fsWrite acc p.1 p.2) fs

/-- The Dockerfile writes of one OS version, in program order; `none` when
the entry has no last clang or gcc version (`list[-1]` would fail). -/
def osWrites (osv : String) (e : OsEntry) : Option (List (String × String)) :=
  match e.clang_versions.getLast?, e.gcc_versions.getLast? with
  | some cl, some gl =>
      (osTargets osv e).mapM (fun t =>
        (dockerfileText (targetBaseImage t) (targetCompilers cl gl t) (targetExtra t)).map
          (fun c => (dockerfileName t, c)))
  | _, _ => none

/-- All file writes of one generation run: the compose manifest (opened
first by `main`) and every Dockerfile. -/
def generatedWrites (cat : Catalog) (repo : String) : Option (List (String × String)) :=
  (cat.mapM (fun p => osWrites p.1 p.2)).map
    (fun ws => ("docker-compose.yml", composeText repo cat) :: ws.flatten)

/-- One generation run of `main` over a file system: apply every write, or
fail as the script does when a catalog entry has no last version. -/
def runGen (cat : Catalog) (repo : String) (fs : FS) : Option FS :=
  (generatedWrites cat repo).map (applyWrites fs)

/-! ### The build driver -/

/-- The five `docker-compose build` commands issued for one OS version, in
source order: primary, clang-only, gcc-only, gcc+CUDA, gcc+NVHPC. -/
def osBuildCmds (u : String) (e : OsEntry) : List String :=
  ["DOCKER_BUILDKIT=1 docker-compose build --force-rm --parallel main-ubuntu" ++ u,
   "DOCKER_BUILDKIT=1 docker-compose build --force-rm --parallel "
     ++ String.intercalate " "
          (e.clang_versions.map (fun x => "clang" ++ x.str ++ "-ubuntu" ++ u)),
   "DOCKER_BUILDKIT=1 docker-compose build --force-rm --parallel "
     ++ String.intercalate " "
          (e.gcc_versions.map (fun x => "gcc" ++ toString x ++ "-ubuntu" ++ u)),
   "DOCKER_BUILDKIT=1 docker-compose build --force-rm --parallel "
     ++ String.intercalate " "
          (e.gcc_versions.flatMap (fun x => e.nvcc_versions.map
            (fun y => "gcc" ++ toString x ++ "-cuda" ++ y ++ "-ubuntu" ++ u))),
   "DOCKER_BUILDKIT=1 docker-compose build --force-rm --parallel "
     ++ String.intercalate " "
          (e.gcc_versions.flatMap (fun x => e.nvhpc_versions.map
            (fun y => "gcc" ++ toString x ++ "-cuda" ++ y.cuda_ver
              ++ "-nvhpc" ++ y.hpc_ver ++ "-ubuntu" ++ u)))]

/-- The full sequence of external build invocations issued by `main`, in
order: for each catalog entry, its five category batches. -/
def buildCommands (cat : Catalog) : List String :=
  cat.flatMap (fun p => osBuildCmds p.1 p.2)

/-! ### Helper lemmas about `String.join` and `String.intercalate` -/

theorem string_join_nil : String.join ([] : List String) = "" := rfl

theorem string_foldl_append (s : String) (l : List String) :
    l.foldl (· ++ ·) s = s ++ String.join l := by
  induction l generalizing s with
  | nil => simp [String.join]
  | cons a as ih =>
      show (a :: as).foldl (· ++ ·) s = s ++ String.join (a :: as)
      have hj : String.join (a :: as) = a ++ String.join as := by
        show (a :: as).foldl (· ++ ·) "" = a ++ String.join as
        rw [List.foldl_cons, ih]
        simp
      rw [List.foldl_cons, ih, hj, String.append_assoc]

theorem string_join_cons (a : String) (l : List String) :
    String.join (a :: l) = a ++ String.join l := by
  show (a :: l).foldl (· ++ ·) "" = a ++ String.join l
  rw [List.foldl_cons, string_foldl_append]
  simp

theorem string_join_append (l1 l2 : List String) :
    String.join (l1 ++ l2) = String.join l1 ++ String.join l2 := by
  induction l1 with
  | nil => simp [string_join_nil]
  | cons a as ih => rw [List.cons_append, string_join_cons, ih, string_join_cons,
      String.append_assoc]

theorem intercalate_go_eq (acc s : String) (l : List String) :
    String.intercalate.go acc s l = acc ++ String.join (l.map (fun x => s ++ x)) := by
  induction l generalizing acc with
  | nil => simp [String.intercalate.go, string_join_nil]
  | cons b bs ih =>
      show String.intercalate.go (acc ++ s ++ b) s bs = _
      rw [ih]
      rw [List.map_cons, string_join_cons]
      simp [String.append_assoc]

theorem intercalate_cons (s a : String) (l : List String) :
    String.intercalate s (a :: l) = a ++ String.join (l.map (fun x => s ++ x)) := by
  show String.intercalate.go a s l = _
  exact intercalate_go_eq a s l

/-- Any member of a joined list that contains a pattern makes the join
contain the pattern. -/
theorem strOccurs_join (m : List String) (y : String) (hy : y ∈ m)
    (pat : String) (h : strOccurs y pat) : strOccurs (String.join m) pat := by
  induction m with
  | nil => cases hy
  | cons z zs ih =>
      rw [string_join_cons]
      rcases List.mem_cons.mp hy with hz | hz
      · exact strOccurs_appendL _ _ _ (hz ▸ h)
      · exact strOccurs_appendR _ _ _ (ih hz)

/-- Every element of the list occurs in the `" "`-joined rendering. -/
theorem strOccurs_intercalate (l : List String) (x : String) (hx : x ∈ l) :
    strOccurs (String.intercalate " " l) x := by
  cases l with
  | nil => cases hx
  | cons a as =>
      rw [intercalate_cons]
      rcases List.mem_cons.mp hx with h | h
      · exact strOccurs_appendL _ _ _ (h ▸ strOccurs_refl x)
      · refine strOccurs_appendR _ _ _ ?_
        refine strOccurs_join _ (" " ++ x) (List.mem_map_of_mem _ h) x ?_
        exact strOccurs_appendR _ _ _ (strOccurs_refl x)

/-! ### Structure of `_gen_alternatives` output -/

/-- The text appended for each non-first alternatives pair. -/
def slaveChunk (p : String × String) : String :=
  " \\\n        --slave " ++ altRule p

/-- The text produced for the first alternatives pair: the single primary
registration, at priority 100. -/
def installChunk (p : String × String) : String :=
  "update-alternatives --install " ++ altRule p ++ " 100 "

theorem string_ne_empty_of_data (s : String) (h : s.data ≠ []) : s ≠ "" := by
  intro he
  exact h (congrArg String.data he)

theorem genAltStep_ne (s : String) (p : String × String) (hs : s ≠ "") :
    genAltStep s p = s ++ slaveChunk p := by
  unfold genAltStep
  rw [if_neg hs]
  rw [slaveChunk, ← String.append_assoc]

theorem foldl_genAltStep_ne (l : List (String × String)) (s : String) (hs : s.data ≠ []) :
    l.foldl genAltStep s = s ++ String.join (l.map slaveChunk) := by
  induction l generalizing s with
  | nil => simp [string_join_nil]
  | cons p ps ih =>
      rw [List.foldl_cons, genAltStep_ne s p (string_ne_empty_of_data s hs)]
      rw [ih (s ++ slaveChunk p) (by rw [String.data_append]; simp [hs])]
      rw [List.map_cons, string_join_cons, String.append_assoc]

/-- `_gen_alternatives` on a non-empty list: one primary `--install`
registration for the head, a `--slave` chunk for every later pair. -/
theorem gen_alternatives_cons (p : String × String) (l : List (String × String)) :
    gen_alternatives (p :: l) = installChunk p ++ String.join (l.map slaveChunk) := by
  unfold gen_alternatives
  rw [List.foldl_cons]
  have h1 : genAltStep "" p = installChunk p := by
    unfold genAltStep installChunk
    rw [if_pos rfl]
  rw [h1]
  refine foldl_genAltStep_ne l (installChunk p) ?_
  unfold installChunk
  rw [String.data_append]
  simp

/-! ### File-system lemmas -/

theorem fsRead_fsWrite (fs : FS) (n c k : String) :
    fsRead (fsWrite fs n c) k = if n = k then some c else fsRead fs k := by
  induction fs with
  | nil =>
      by_cases h : n = k <;> simp [fsWrite, fsRead, h]
  | cons e rest ih =>
      obtain ⟨m, d⟩ := e
      by_cases hmn : m = n
      · subst hmn
        by_cases hk : m = k <;> simp [fsWrite, fsRead, hk]
      · by_cases hk : m = k
        · subst hk
          have hnk : ¬ n = m := fun h => hmn h.symm
          simp [fsWrite, fsRead, hmn, hnk]
        · simp [fsWrite, fsRead, hmn, hk, ih]

/-- Value of the last write of a key in a write list, if any. -/
def lastWrite : List (String × String) → String → Option String
  | [], _ => none
  | (n, c) :: rest, k => (lastWrite rest k).or (if n = k then some c else none)

theorem applyWrites_cons (fs : FS) (n c : String) (w : List (String × String)) :
    applyWrites fs ((n, c) :: w) = applyWrites (fsWrite fs n c) w := rfl

theorem fsRead_applyWrites (w : List (String × String)) (fs : FS) (k : String) :
    fsRead (applyWrites fs w) k = (lastWrite w k).or (fsRead fs k) := by
  induction w generalizing fs with
  | nil => simp [applyWrites, lastWrite]
  | cons p ps ih =>
      obtain ⟨n, c⟩ := p
      rw [applyWrites_cons, ih, fsRead_fsWrite]
      show _ = ((lastWrite ps k).or (if n = k then some c else none)).or (fsRead fs k)
      cases hlast : lastWrite ps k with
      | some v => simp
      | none =>
          by_cases hnk : n = k <;> simp [hnk]

/-- Replaying the same write list over its own result does not change any
file content. -/
theorem applyWrites_replay_read (w : List (String × String)) (fs : FS) (k : String) :
    fsRead (applyWrites (applyWrites fs w) w) k = fsRead (applyWrites fs w) k := by
  rw [fsRead_applyWrites, fsRead_applyWrites]
  cases lastWrite w k <;> simp

/-! ### Occurrence positions inside `compilerBody` -/

theorem strOccurs_compilerBody_pre (c : Option ClangVer) (g : Option Nat)
    (extra pat : String) (h : strOccurs (compilerPreInstall c) pat) :
    strOccurs (compilerBody c g extra) pat := by
  unfold compilerBody
  exact strOccurs_appendL _ _ _ (strOccurs_appendL _ _ _ (strOccurs_appendL _ _ _
    (strOccurs_appendL _ _ _ (strOccurs_appendL _ _ _ (strOccurs_appendR _ _ _ h)))))

theorem strOccurs_compilerBody_packages (c : Option ClangVer) (g : Option Nat)
    (extra pat : String) (h : strOccurs (compilerPackages c g extra) pat) :
    strOccurs (compilerBody c g extra) pat := by
  unfold compilerBody
  exact strOccurs_appendL _ _ _ (strOccurs_appendL _ _ _ (strOccurs_appendL _ _ _
    (strOccurs_appendR _ _ _ h)))

theorem strOccurs_compilerBody_alts (c : Option ClangVer) (g : Option Nat)
    (extra : String) :
    strOccurs (compilerBody c g extra) (gen_alternatives (compilerAlts c g)) := by
  unfold compilerBody
  exact strOccurs_appendL _ _ _ (strOccurs_appendR _ _ _ (strOccurs_refl _))

theorem strOccursBefore_compilerBody_alts (c : Option ClangVer) (g : Option Nat)
    (extra u v : String)
    (h : strOccursBefore (gen_alternatives (compilerAlts c g)) u v) :
    strOccursBefore (compilerBody c g extra) u v := by
  unfold compilerBody
  exact strOccursBefore_appendL _ _ _ _ (strOccursBefore_appendR _ _ _ _ h)

theorem get_compiler_text_clang (cv : ClangVer) (g : Option Nat) (extra : String) :
    get_compiler_text ⟨some cv, g⟩ extra = some (compilerBody (some cv) g extra) := rfl

/-- The clang package block is always a prefix of the final package list
when a clang request is present. -/
theorem compilerPackages_clang_split (cv : ClangVer) (g : Option Nat) (extra : String) :
    ∃ r, compilerPackages (some cv) g extra = clangPackages ++ r := by
  cases g with
  | none =>
      by_cases he : extra = ""
      · exact ⟨"", by simp [compilerPackages, he]⟩
      · exact ⟨" " ++ extra, by simp [compilerPackages, he, String.append_assoc]⟩
  | some w =>
      by_cases he : extra = ""
      · exact ⟨" g++-" ++ toString w,
          by simp [compilerPackages, he, String.append_assoc]⟩
      · exact ⟨" g++-" ++ toString w ++ (" " ++ extra),
          by simp [compilerPackages, he, String.append_assoc]⟩

/-- With a clang request, the pre-install block contains the binding of
the shell variable `v`. -/
theorem clangPreInstall_has_binding (cv : ClangVer) :
    strOccurs (clangPreInstall cv) (vBindingChunk cv) := by
  unfold clangPreInstall
  exact strOccurs_appendR _ _ _ (strOccurs_appendR _ _ _ (strOccurs_self_append _ _))

/-- Claim C1: for a clang request, the rendered installation block always
binds the shell token `v` via `v="{llvm_apt_ver}"` and names packages via
that token (`clang-$v` in the package list); the bound value is the
shell-evaluated lookup expression exactly for the development sentinel or
a version at/above threshold 13, and the literal requested number for a
version below the threshold. -/
theorem claim1_deferred_version_binding (cv : ClangVer) (g : Option Nat)
    (extra t : String) (ht : get_compiler_text ⟨some cv, g⟩ extra = some t) :
    strOccurs t ("v=\"" ++ llvm_apt_ver cv ++ "\"")
    ∧ strOccurs t "        clang-$v"
    ∧ ((cv = ClangVer.dev ∨ ∃ n, cv = ClangVer.num n ∧ 13 ≤ n) →
        llvm_apt_ver cv = llvmLookupExpr)
    ∧ (∀ n, cv = ClangVer.num n → n < 13 → llvm_apt_ver cv = toString n) := by
  rw [get_compiler_text_clang] at ht
  have hteq : t = compilerBody (some cv) g extra := (Option.some.inj ht).symm
  subst hteq
  refine ⟨?_, ?_, ?_, ?_⟩
  · exact strOccurs_compilerBody_pre _ _ _ _ (clangPreInstall_has_binding cv)
  · obtain ⟨r, hr⟩ := compilerPackages_clang_split cv g extra
    refine strOccurs_compilerBody_packages _ _ _ _ ?_
    rw [hr]
    refine strOccurs_appendL _ _ _ ?_
    show strOccurs clangPackages "        clang-$v"
    decide
  · rintro (h | ⟨n, hn, hle⟩)
    · subst h
      simp [llvm_apt_ver, clangDeferred]
    · subst hn
      have hd : clangDeferred (ClangVer.num n) = true := by
        simp [clangDeferred]
        omega
      simp [llvm_apt_ver, hd]
  · intro n hn hlt
    subst hn
    have hd : clangDeferred (ClangVer.num n) = false := by
      simp [clangDeferred]
      omega
    simp [llvm_apt_ver, hd, ClangVer.str]

/-- Concrete instances of C1: version 13 gets the deferred shell lookup,
version 7 gets the literal number. -/
theorem claim1_deferred_version_binding_witness :
    strOccurs (compilerBody (some (ClangVer.num 13)) none "")
      ("v=\"" ++ llvm_apt_ver (ClangVer.num 13) ++ "\"")
    ∧ llvm_apt_ver (ClangVer.num 13) = llvmLookupExpr
    ∧ llvm_apt_ver (ClangVer.num 7) = toString 7 :=
  ⟨(claim1_deferred_version_binding (ClangVer.num 13) none "" _ rfl).1,
   (claim1_deferred_version_binding (ClangVer.num 13) none "" _ rfl).2.2.1
     (Or.inr ⟨13, rfl, by norm_num⟩),
   (claim1_deferred_version_binding (ClangVer.num 7) none "" _ rfl).2.2.2 7 rfl
     (by norm_num)⟩

/-! ### Ordering of alias registrations (C4) -/

theorem strOccurs_installChunk (p : String × String) :
    strOccurs (installChunk p) (altRule p) := by
  unfold installChunk
  exact strOccurs_appendL _ _ _ (strOccurs_appendR _ _ _ (strOccurs_refl _))

theorem strOccurs_slaveChunk (p : String × String) :
    strOccurs (slaveChunk p) (altRule p) := by
  unfold slaveChunk
  exact strOccurs_appendR _ _ _ (strOccurs_refl _)

/-- In `_gen_alternatives` applied to a concatenated pair list, every rule
of the first list is rendered before every rule of the second list. -/
theorem gen_alternatives_mem_before (l1 l2 : List (String × String))
    (p q : String × String) (hp : p ∈ l1) (hq : q ∈ l2) :
    strOccursBefore (gen_alternatives (l1 ++ l2)) (altRule p) (altRule q) := by
  cases l1 with
  | nil => cases hp
  | cons x rest =>
      show strOccursBefore (gen_alternatives (x :: (rest ++ l2))) _ _
      rw [gen_alternatives_cons, List.map_append, string_join_append,
        ← String.append_assoc]
      apply strOccursBefore_of_append
      · rcases List.mem_cons.mp hp with h | h
        · subst h
          exact strOccurs_appendL _ _ _ (strOccurs_installChunk p)
        · exact strOccurs_appendR _ _ _
            (strOccurs_join _ _ (List.mem_map_of_mem _ h) _ (strOccurs_slaveChunk p))
      · exact strOccurs_join _ _ (List.mem_map_of_mem _ hq) _ (strOccurs_slaveChunk q)

theorem compilerAlts_both (cv : ClangVer) (gv : Nat) :
    compilerAlts (some cv) (some gv) = clangAltPairs ++ gccAltPairs gv := by
  simp [compilerAlts]

/-- Claim C4: when both families are requested, every clang alias rule is
rendered at a smaller offset than every gcc alias rule in the output of
`_get_compiler_text`. -/
theorem claim4_alias_ordering (cv : ClangVer) (gv : Nat) (extra t : String)
    (ht : get_compiler_text ⟨some cv, some gv⟩ extra = some t)
    (cp gp : String × String) (hcp : cp ∈ clangAltPairs) (hgp : gp ∈ gccAltPairs gv) :
    strOccursBefore t (altRule cp) (altRule gp) := by
  rw [get_compiler_text_clang] at ht
  have hteq : t = compilerBody (some cv) (some gv) extra := (Option.some.inj ht).symm
  subst hteq
  refine strOccursBefore_compilerBody_alts _ _ _ _ _ ?_
  rw [compilerAlts_both]
  exact gen_alternatives_mem_before _ _ _ _ hcp hgp

/-- Concrete instance of C4: the `clang` alias rule precedes the `gcc`
alias rule for clang 15 / gcc 11. -/
theorem claim4_alias_ordering_witness :
    strOccursBefore (compilerBody (some (ClangVer.num 15)) (some 11) "")
      (altRule ("clang", "/usr/bin/clang-$v"))
      (altRule ("gcc", "/usr/bin/gcc-" ++ toString 11)) :=
  claim4_alias_ordering (ClangVer.num 15) 11 "" _ rfl
    ("clang", "/usr/bin/clang-$v") ("gcc", "/usr/bin/gcc-" ++ toString 11)
    (by decide) (by decide)

/-- Claim C5: `_get_compiler_text` rejects a request exactly when it
contains neither a clang nor a gcc family; any request with at least one
family renders successfully. -/
theorem claim5_requires_compiler_family (c : Option ClangVer) (g : Option Nat)
    (extra : String) :
    get_compiler_text ⟨c, g⟩ extra = none ↔ (c = none ∧ g = none) := by
  cases c <;> cases g <;> simp [get_compiler_text]

/-- Claim C9: for every accepted request the rendered alternatives
registration installs exactly the first alias pair as the primary
registration at priority 100 and renders every later pair as a `--slave`
binding; when both families are requested the primary pair is the clang
driver alias and all gcc alias pairs are among the slave pairs. -/
theorem claim9_single_primary_registration (c : Option ClangVer) (g : Option Nat)
    (extra t : String) (ht : get_compiler_text ⟨c, g⟩ extra = some t) :
    ∃ first rest, compilerAlts c g = first :: rest
    ∧ gen_alternatives (compilerAlts c g)
        = installChunk first ++ String.join (rest.map slaveChunk)
    ∧ strOccurs t (gen_alternatives (compilerAlts c g))
    ∧ (∀ cv w, c = some cv → g = some w →
        first = ("clang", "/usr/bin/clang-$v") ∧ ∀ pr ∈ gccAltPairs w, pr ∈ rest) := by
  have hbody : t = compilerBody c g extra := by
    match c, g, ht with
    | none, none, ht => simp [get_compiler_text] at ht
    | some cv, g, ht => exact (Option.some.inj ht).symm
    | none, some w, ht => exact (Option.some.inj ht).symm
  subst hbody
  match c, g with
  | none, none => simp [get_compiler_text] at ht
  | some cv, none =>
      refine ⟨_, _, rfl, gen_alternatives_cons _ _,
        strOccurs_compilerBody_alts _ _ _, ?_⟩
      intro cv2 w _ hg
      simp at hg
  | some cv, some w =>
      refine ⟨_, _, rfl, gen_alternatives_cons _ _,
        strOccurs_compilerBody_alts _ _ _, ?_⟩
      intro cv2 w2 _ hg
      have hw : w2 = w := by
        simpa using hg.symm
      subst hw
      refine ⟨rfl, ?_⟩
      intro pr hpr
      exact List.mem_cons_of_mem _ (List.mem_cons_of_mem _ (List.mem_cons_of_mem _
        (List.mem_cons_of_mem _ (List.mem_cons_of_mem _ hpr))))
  | none, some w =>
      refine ⟨_, _, rfl, gen_alternatives_cons _ _,
        strOccurs_compilerBody_alts _ _ _, ?_⟩
      intro cv2 w2 hc _
      simp at hc

/-- Concrete instance of C9 at clang 7 / gcc 9, with the both-families
consequences instantiated. -/
theorem claim9_single_primary_registration_witness :
    ∃ first rest,
      compilerAlts (some (ClangVer.num 7)) (some 9) = first :: rest
      ∧ gen_alternatives (compilerAlts (some (ClangVer.num 7)) (some 9))
          = installChunk first ++ String.join (rest.map slaveChunk)
      ∧ first = ("clang", "/usr/bin/clang-$v")
      ∧ ∀ pr ∈ gccAltPairs 9, pr ∈ rest := by
  obtain ⟨first, rest, h1, h2, _, h4⟩ :=
    claim9_single_primary_registration (some (ClangVer.num 7)) (some 9) "" _ rfl
  obtain ⟨h5, h6⟩ := h4 (ClangVer.num 7) 9 rfl rfl
  exact ⟨first, rest, h1, h2, h5, h6⟩

/-! ### Derived names (C2, C8) -/

/-- Every Dockerfile name is the service name prefixed with
`"Dockerfile."`. -/
theorem dockerfileName_eq_service (t : Target) :
    dockerfileName t = "Dockerfile." ++ serviceName t := by
  cases t <;>
    (apply string_eq_of_data
     simp only [dockerfileName, serviceName, String.data_append, List.append_assoc]
     rfl)

set_option maxRecDepth 10000 in
theorem allNames_nodup : ((allTargets ubuntu_versions).map serviceName).Nodup := by
  decide

/-- Claim C2: over the targets enumerated from the hardcoded catalog, both
derived names are injective: distinct targets get distinct service names
and distinct Dockerfile names. -/
theorem claim2_name_injectivity (t1 t2 : Target)
    (h1 : t1 ∈ allTargets ubuntu_versions) (h2 : t2 ∈ allTargets ubuntu_versions)
    (hne : t1 ≠ t2) :
    serviceName t1 ≠ serviceName t2 ∧ dockerfileName t1 ≠ dockerfileName t2 := by
  have hs : serviceName t1 ≠ serviceName t2 := fun he =>
    hne (List.inj_on_of_nodup_map allNames_nodup h1 h2 he)
  refine ⟨hs, fun hd => hs ?_⟩
  rw [dockerfileName_eq_service, dockerfileName_eq_service] at hd
  have hdata := congrArg String.data hd
  simp only [String.data_append] at hdata
  exact string_eq_of_data _ _ (List.append_cancel_left hdata)

/-- Concrete instance of C2 for the two primary targets. -/
theorem claim2_name_injectivity_witness :
    serviceName (Target.primary "20.04") ≠ serviceName (Target.primary "22.04")
    ∧ dockerfileName (Target.primary "20.04") ≠ dockerfileName (Target.primary "22.04") :=
  claim2_name_injectivity (Target.primary "20.04") (Target.primary "22.04")
    (by decide) (by decide) (by decide)

/-- Claim C8: every compose stanza names the service derived from the
target tuple, tags the image as the repository root plus the same
tuple-derived suffix, and points its dockerfile field at exactly the
Dockerfile generated for that target, which is the service name prefixed
with `"Dockerfile."`. -/
theorem claim8_compose_stanza_shape (repo : String) (t : Target) :
    composeStanza repo t
      = "\n  " ++ serviceName t ++ ":\n    image: " ++ repo ++ ":" ++ serviceName t
        ++ "\n    build:\n      context: .\n      dockerfile: " ++ dockerfileName t
        ++ "\n    "
    ∧ dockerfileName t = "Dockerfile." ++ serviceName t := by
  refine ⟨?_, dockerfileName_eq_service t⟩
  cases t <;>
    (apply string_eq_of_data
     simp only [composeStanza, dockerfileName, serviceName,
       String.data_append, List.append_assoc]
     rfl)

/-! ### Enumeration counts (C3) -/

/-- Category predicates over targets. -/
def Target.isPrimary : Target → Bool
  | .primary _ => true
  | _ => false

def Target.isClangOnly : Target → Bool
  | .clangOnly _ _ => true
  | _ => false

def Target.isGccOnly : Target → Bool
  | .gccOnly _ _ => true
  | _ => false

def Target.isGccCuda : Target → Bool
  | .gccCuda _ _ _ => true
  | _ => false

def Target.isGccNvhpc : Target → Bool
  | .gccNvhpc _ _ _ _ => true
  | _ => false

/-- The catalog of the example scenario of the specification: one OS
version, no clang versions, gcc versions 9 and 10, one CUDA version, no
NVHPC pairs. -/
def scenEntry : OsEntry :=
  { clang_versions := [], gcc_versions := [9, 10],
    nvcc_versions := ["11.7.1"], nvhpc_versions := [] }

def scenCatalog : Catalog := [("20.04", scenEntry)]

/-- Counterexample to claim C3 as stated: on the example-scenario catalog
(no clang versions), the generation run of `main` fails — `clang_versions[-1]`
for the primary target does not exist — so no run over that catalog
produces 5 files and a 5-stanza manifest. -/
theorem claim3_counterexample :
    runGen scenCatalog "lucteo/action-cxx-toolkit" [] = none := rfl

/-- Claim C3 (amended): per OS entry, enumeration yields one primary
target, one single-family target per listed compiler version, gcc×nvcc
GPU-toolkit targets and gcc×nvhpc GPU-runtime targets; on the example
scenario the enumerated list has exactly 5 targets with 5 distinct
Dockerfile names, and the compose text for it contains exactly 5 stanzas —
although the generation run itself aborts on that catalog
(`claim3_counterexample`) because the primary target needs a latest clang
version. -/
theorem claim3_enumeration_counts :
    (∀ (osv : String) (e : OsEntry),
      (osTargets osv e).length
        = 1 + e.clang_versions.length
          + e.gcc_versions.length * (1 + e.nvcc_versions.length + e.nvhpc_versions.length)
      ∧ (osTargets osv e).countP Target.isPrimary = 1
      ∧ (osTargets osv e).countP (fun t => t.isClangOnly || t.isGccOnly)
          = e.clang_versions.length + e.gcc_versions.length
      ∧ (osTargets osv e).countP Target.isGccCuda
          = e.gcc_versions.length * e.nvcc_versions.length
      ∧ (osTargets osv e).countP Target.isGccNvhpc
          = e.gcc_versions.length * e.nvhpc_versions.length)
    ∧ (osTargets "20.04" scenEntry).length = 5
    ∧ ((osTargets "20.04" scenEntry).map dockerfileName).Nodup
    ∧ countSubstr (composeText "lucteo/action-cxx-toolkit" scenCatalog) "\n    image: " = 5 := by
  refine ⟨?_, by decide, by decide, by decide⟩
  intro osv e
  refine ⟨?_, ?_, ?_, ?_, ?_⟩
  · simp only [osTargets, List.length_append, List.length_flatten, List.map_map,
      List.length_map, List.length_cons, List.length_nil]
    simp only [Function.comp_def, List.length_append, List.length_map,
      List.length_cons, List.length_nil]
    rw [List.map_const']
    rw [List.sum_replicate]
    simp only [smul_eq_mul]
    try ring
  · simp [osTargets, List.countP_append, List.countP_map, List.countP_flatten,
      Function.comp_def, Target.isPrimary, List.countP_cons, List.countP_nil]
  · simp [osTargets, List.countP_append, List.countP_map, List.countP_flatten,
      Function.comp_def, Target.isPrimary, Target.isClangOnly, Target.isGccOnly,
      List.countP_cons, List.countP_nil, List.map_const', List.sum_replicate]
  · simp [osTargets, List.countP_append, List.countP_map, List.countP_flatten,
      Function.comp_def, Target.isGccCuda, List.countP_cons, List.countP_nil,
      List.map_const', List.sum_replicate, smul_eq_mul, Nat.mul_comm]
  · simp [osTargets, List.countP_append, List.countP_map, List.countP_flatten,
      Function.comp_def, Target.isGccNvhpc, List.countP_cons, List.countP_nil,
      List.map_const', List.sum_replicate, smul_eq_mul, Nat.mul_comm]

/-! ### Generation runs over the file system (C6, C10) -/

/-- Claim C6: generation is idempotent over the file-system state: when a
run over `fs` succeeds and produces `fsA`, a second run over `fsA`
succeeds as well and leaves every file content unchanged. -/
theorem claim6_idempotent_generation (cat : Catalog) (repo : String) (fs fsA : FS)
    (h : runGen cat repo fs = some fsA) :
    (∃ fsB, runGen cat repo fsA = some fsB)
    ∧ (∀ fsB, runGen cat repo fsA = some fsB →
        ∀ name, fsRead fsB name = fsRead fsA name) := by
  cases hw : generatedWrites cat repo with
  | none =>
      rw [runGen, hw] at h
      simp at h
  | some w =>
      have hA : fsA = applyWrites fs w := by
        rw [runGen, hw] at h
        exact (Option.some.inj h).symm
      subst hA
      constructor
      · exact ⟨applyWrites (applyWrites fs w) w, by rw [runGen, hw]; rfl⟩
      · intro fsB hB name
        have hB2 : fsB = applyWrites (applyWrites fs w) w := by
          rw [runGen, hw] at hB
          exact (Option.some.inj hB).symm
        subst hB2
        exact applyWrites_replay_read w fs name

/-- A small catalog used to instantiate the generation-run theorems on a
fully evaluated run. -/
def tinyEntry : OsEntry :=
  { clang_versions := [.num 7], gcc_versions := [9],
    nvcc_versions := [], nvhpc_versions := [] }

def tinyCatalog : Catalog := [("X", tinyEntry)]

/-- Concrete instance of C6: rerunning generation on the produced state of
a run over the small catalog leaves the clang Dockerfile unchanged. -/
theorem claim6_idempotent_generation_witness :
    fsRead ((runGen tinyCatalog "r"
        ((runGen tinyCatalog "r" []).getD [])).getD [])
      "Dockerfile.clang7-ubuntuX"
      = fsRead ((runGen tinyCatalog "r" []).getD []) "Dockerfile.clang7-ubuntuX" :=
  (claim6_idempotent_generation tinyCatalog "r" []
      ((runGen tinyCatalog "r" []).getD []) (by rfl)).2
    ((runGen tinyCatalog "r" ((runGen tinyCatalog "r" []).getD [])).getD [])
    (by rfl) "Dockerfile.clang7-ubuntuX"

/-- Claim C10: the repository-root value influences only the compose
manifest: two successful runs over the same catalog and starting state
that differ only in the repository root agree on the content of every
file other than `docker-compose.yml`. -/
theorem claim10_repo_only_affects_compose (cat : Catalog) (r1 r2 : String)
    (fs a b : FS) (h1 : runGen cat r1 fs = some a) (h2 : runGen cat r2 fs = some b)
    (name : String) (hname : name ≠ "docker-compose.yml") :
    fsRead a name = fsRead b name := by
  cases hw : cat.mapM (fun p => osWrites p.1 p.2) with
  | none =>
      rw [runGen, generatedWrites, hw] at h1
      simp at h1
  | some ws =>
      have ha : a = applyWrites fs
          (("docker-compose.yml", composeText r1 cat) :: ws.flatten) := by
        rw [runGen, generatedWrites, hw] at h1
        exact (Option.some.inj h1).symm
      have hb : b = applyWrites fs
          (("docker-compose.yml", composeText r2 cat) :: ws.flatten) := by
        rw [runGen, generatedWrites, hw] at h2
        exact (Option.some.inj h2).symm
      subst ha
      subst hb
      rw [applyWrites_cons, applyWrites_cons, fsRead_applyWrites, fsRead_applyWrites,
        fsRead_fsWrite, fsRead_fsWrite]
      have hne : ¬ ("docker-compose.yml" = name) := fun h => hname h.symm
      simp only [if_neg hne]

/-- Concrete instance of C10: two runs with different repository roots
produce the same gcc Dockerfile. -/
theorem claim10_repo_only_affects_compose_witness :
    fsRead ((runGen tinyCatalog "repoA" []).getD []) "Dockerfile.gcc9-ubuntuX"
      = fsRead ((runGen tinyCatalog "repoB" []).getD []) "Dockerfile.gcc9-ubuntuX" :=
  claim10_repo_only_affects_compose tinyCatalog "repoA" "repoB" []
    ((runGen tinyCatalog "repoA" []).getD [])
    ((runGen tinyCatalog "repoB" []).getD [])
    (by rfl) (by rfl) "Dockerfile.gcc9-ubuntuX" (by decide)

/-! ### The build driver (C7) -/

theorem flatMap_mem_split {α β : Type} (l : List α) (f : α → List β) (x : α)
    (hx : x ∈ l) : ∃ p q, l.flatMap f = p ++ (f x ++ q) := by
  induction l with
  | nil => cases hx
  | cons y ys ih =>
      rcases List.mem_cons.mp hx with h | h
      · subst h
        exact ⟨[], ys.flatMap f, by simp⟩
      · obtain ⟨p, q, hpq⟩ := ih h
        exact ⟨f y ++ p, q, by simp [hpq]⟩

set_option maxRecDepth 10000 in
/-- Counterexample to claim C7 as stated: the driver does not issue one
batch per category in a single fixed global order. With the two-entry
catalog, command 5 is a primary batch issued after the clang batch at
command 1, and the clang-only services are split between commands 1 and 6
instead of forming one batch. -/
theorem claim7_counterexample :
    (buildCommands ubuntu_versions)[1]?
      = some ("DOCKER_BUILDKIT=1 docker-compose build --force-rm --parallel clang7-ubuntu20.04 clang8-ubuntu20.04 clang9-ubuntu20.04 clang10-ubuntu20.04 clang11-ubuntu20.04 clang12-ubuntu20.04 clang13-ubuntu20.04 clang14-ubuntu20.04 clang15-ubuntu20.04 clangdev-ubuntu20.04")
    ∧ (buildCommands ubuntu_versions)[5]?
      = some "DOCKER_BUILDKIT=1 docker-compose build --force-rm --parallel main-ubuntu22.04"
    ∧ (buildCommands ubuntu_versions)[6]?
      = some ("DOCKER_BUILDKIT=1 docker-compose build --force-rm --parallel clang14-ubuntu22.04 clang15-ubuntu22.04 clangdev-ubuntu22.04") := by
  refine ⟨?_, ?_, ?_⟩ <;> decide

/-- Claim C7 (amended): for each catalog entry, in catalog order, the
driver issues exactly five batches in the fixed category order (primary;
clang-only; gcc-only; gcc+CUDA; gcc+NVHPC); each batch is one invocation
that starts with the fixed build command carrying the parallel and
force-rebuild flags and lists every service name of its category for that
OS version. -/
theorem claim7_batching_per_os (cat : Catalog) (u : String) (e : OsEntry)
    (hmem : (u, e) ∈ cat) :
    (∃ p q, buildCommands cat = p ++ (osBuildCmds u e ++ q))
    ∧ (osBuildCmds u e).length = 5
    ∧ (∀ cmd ∈ osBuildCmds u e, ∃ rest,
        cmd = "DOCKER_BUILDKIT=1 docker-compose build --force-rm --parallel " ++ rest
        ∧ strOccurs cmd "--parallel" ∧ strOccurs cmd "--force-rm")
    ∧ strOccurs ((osBuildCmds u e)[0]?.getD "") (serviceName (Target.primary u))
    ∧ (∀ v ∈ e.clang_versions,
        strOccurs ((osBuildCmds u e)[1]?.getD "") (serviceName (Target.clangOnly v u)))
    ∧ (∀ v ∈ e.gcc_versions,
        strOccurs ((osBuildCmds u e)[2]?.getD "") (serviceName (Target.gccOnly v u)))
    ∧ (∀ v ∈ e.gcc_versions, ∀ y ∈ e.nvcc_versions,
        strOccurs ((osBuildCmds u e)[3]?.getD "") (serviceName (Target.gccCuda v y u)))
    ∧ (∀ v ∈ e.gcc_versions, ∀ y ∈ e.nvhpc_versions,
        strOccurs ((osBuildCmds u e)[4]?.getD "")
          (serviceName (Target.gccNvhpc v y.cuda_ver y.hpc_ver u))) := by
  have hsplit0 :
      ("DOCKER_BUILDKIT=1 docker-compose build --force-rm --parallel main-ubuntu" ++ u)
        = "DOCKER_BUILDKIT=1 docker-compose build --force-rm --parallel "
          ++ ("main-ubuntu" ++ u) := by
    apply string_eq_of_data
    simp only [String.data_append, List.append_assoc]
    rfl
  refine ⟨flatMap_mem_split cat (fun p => osBuildCmds p.1 p.2) (u, e) hmem,
    rfl, ?_, ?_, ?_, ?_, ?_, ?_⟩
  · intro cmd hcmd
    have hpar : strOccurs
        "DOCKER_BUILDKIT=1 docker-compose build --force-rm --parallel " "--parallel" := by
      decide
    have hfrm : strOccurs
        "DOCKER_BUILDKIT=1 docker-compose build --force-rm --parallel " "--force-rm" := by
      decide
    simp only [osBuildCmds, List.mem_cons, List.not_mem_nil, or_false] at hcmd
    rcases hcmd with h | h | h | h | h <;> subst h
    · rw [hsplit0]
      exact ⟨"main-ubuntu" ++ u, rfl,
        strOccurs_appendL _ _ _ hpar, strOccurs_appendL _ _ _ hfrm⟩
    · exact ⟨_, rfl, strOccurs_appendL _ _ _ hpar, strOccurs_appendL _ _ _ hfrm⟩
    · exact ⟨_, rfl, strOccurs_appendL _ _ _ hpar, strOccurs_appendL _ _ _ hfrm⟩
    · exact ⟨_, rfl, strOccurs_appendL _ _ _ hpar, strOccurs_appendL _ _ _ hfrm⟩
    · exact ⟨_, rfl, strOccurs_appendL _ _ _ hpar, strOccurs_appendL _ _ _ hfrm⟩
  · show strOccurs
      ("DOCKER_BUILDKIT=1 docker-compose build --force-rm --parallel main-ubuntu" ++ u)
      ("main-ubuntu" ++ u)
    rw [hsplit0]
    exact strOccurs_appendR _ _ _ (strOccurs_refl _)
  · intro v hv
    show strOccurs ("DOCKER_BUILDKIT=1 docker-compose build --force-rm --parallel "
      ++ String.intercalate " "
          (e.clang_versions.map (fun x => "clang" ++ x.str ++ "-ubuntu" ++ u))) _
    exact strOccurs_appendR _ _ _
      (strOccurs_intercalate _ _ (List.mem_map_of_mem _ hv))
  · intro v hv
    show strOccurs ("DOCKER_BUILDKIT=1 docker-compose build --force-rm --parallel "
      ++ String.intercalate " "
          (e.gcc_versions.map (fun x => "gcc" ++ toString x ++ "-ubuntu" ++ u))) _
    exact strOccurs_appendR _ _ _
      (strOccurs_intercalate _ _ (List.mem_map_of_mem _ hv))
  · intro v hv y hy
    show strOccurs ("DOCKER_BUILDKIT=1 docker-compose build --force-rm --parallel "
      ++ String.intercalate " "
          (e.gcc_versions.flatMap (fun x => e.nvcc_versions.map
            (fun z => "gcc" ++ toString x ++ "-cuda" ++ z ++ "-ubuntu" ++ u)))) _
    refine strOccurs_appendR _ _ _ (strOccurs_intercalate _ _ ?_)
    exact List.mem_flatMap.mpr ⟨v, hv, List.mem_map_of_mem _ hy⟩
  · intro v hv y hy
    show strOccurs ("DOCKER_BUILDKIT=1 docker-compose build --force-rm --parallel "
      ++ String.intercalate " "
          (e.gcc_versions.flatMap (fun x => e.nvhpc_versions.map
            (fun z => "gcc" ++ toString x ++ "-cuda" ++ z.cuda_ver
              ++ "-nvhpc" ++ z.hpc_ver ++ "-ubuntu" ++ u)))) _
    refine strOccurs_appendR _ _ _ (strOccurs_intercalate _ _ ?_)
    exact List.mem_flatMap.mpr ⟨v, hv, List.mem_map_of_mem _ hy⟩

/-- Concrete instance of C7 (amended) for the Ubuntu 20.04 entry. -/
theorem claim7_batching_per_os_witness :
    (osBuildCmds "20.04" os2004).length = 5
    ∧ strOccurs ((osBuildCmds "20.04" os2004)[1]?.getD "")
        (serviceName (Target.clangOnly (ClangVer.num 7) "20.04"))
    ∧ strOccurs ((osBuildCmds "20.04" os2004)[4]?.getD "")
        (serviceName (Target.gccNvhpc 7 "11.7" "22.7" "20.04")) :=
  ⟨(claim7_batching_per_os ubuntu_versions "20.04" os2004 (by decide)).2.1,
   (claim7_batching_per_os ubuntu_versions "20.04" os2004 (by decide)).2.2.2.2.1
     (ClangVer.num 7) (by decide),
   (claim7_batching_per_os ubuntu_versions "20.04" os2004 (by decide)).2.2.2.2.2.2.2
     7 (by decide) ⟨"22.7", "11.7"⟩ (by decide)⟩

end Buildall
